import Mathlib

/-!
# mod_dav_calendar — CalDAV filter engine, shallow embedding

A shallow embedding of the filter/time-range evaluation engine of
`src/mod_dav_calendar.c` (the CalDAV query engine of mod_dav_calendar).
Pure C helper functions become Lean functions on `List Char` / `Nat`;
the shared mutable "match" flag of `dav_calendar_ctx` is threaded
explicitly as a `Bool`; fallible calls return `Except DavErr`.

External collaborators (the libical parsing/recurrence library and the
mod_dav XML helpers) are not part of the repository; where a claim
depends on them they are modelled from the spec's collaborator
contract, each such definition marked `Modelled from the spec:`.
-/

namespace ModDavCalendar

/-- A `dav_error` as produced by `dav_new_error` in the module: the HTTP
status, the precondition tag placed in `err->tagname`, and the
human-readable description. -/
structure DavErr where
  status : Nat
  tagname : List Char
  description : List Char
deriving DecidableEq, Repr

/-- `HTTP_FORBIDDEN`, the status used by every filter error in the module. -/
def HTTP_FORBIDDEN : Nat := 403

/-! ## Text matching (`dav_calendar_ascii_toupper`,
`dav_calendar_text_match_ascii_casecmp`, `dav_calendar_text_match_octet`) -/

/-- `dav_calendar_ascii_toupper`: `return c < 0 ? c : c | ' ';` on a
(signed) `char`.  Bytes ≥ 0x80 are negative as `char` and returned
unchanged; bytes below 0x80 get bit 0x20 set. -/
def dav_calendar_ascii_toupper (c : Char) : Nat :=
  if c.toNat < 128 then c.toNat ||| 32 else c.toNat

/-- The first inner `while` of `dav_calendar_text_match_ascii_casecmp`:
advance `stext` while it is nonempty and its head does not fold-equal
the (fixed) first character of the pattern (`*smatch`, which is the NUL
byte, folding to 0x20, when the pattern is empty). -/
def asciiSkip (m0 : Nat) : List Char → List Char
  | [] => []
  | c :: r =>
    if m0 = dav_calendar_ascii_toupper c then c :: r else asciiSkip m0 r

/-- The second inner `while` of `dav_calendar_text_match_ascii_casecmp`:
advance both cursors while both strings are nonempty and their heads
fold-equal; the result is the remaining (unconsumed) pattern. -/
def asciiGreedy : List Char → List Char → List Char
  | a :: mr, b :: tr =>
    if dav_calendar_ascii_toupper a = dav_calendar_ascii_toupper b then
      asciiGreedy mr tr
    else a :: mr
  | ms, _ => ms

/-- The NUL byte as the pattern head of an empty pattern folds to 0x20
(`dav_calendar_ascii_toupper` of `'\0'`). -/
def asciiHeadFold (ms : List Char) : Nat :=
  match ms with
  | [] => 32
  | c :: _ => dav_calendar_ascii_toupper c

/-- `dav_calendar_text_match_ascii_casecmp(match, text)`: the outer
`while (*text)` loop; one iteration skips to the first position whose
head fold-equals the pattern head, greedily matches the pattern there,
returns 1 on full consumption, otherwise retries from `text + 1`. -/
def dav_calendar_text_match_ascii_casecmp (ms ts : List Char) : Bool :=
  match ts with
  | [] => false
  | _ :: tr =>
    if asciiGreedy ms (asciiSkip (asciiHeadFold ms) ts) = [] then true
    else dav_calendar_text_match_ascii_casecmp ms tr

/-- `dav_calendar_text_match_octet(match, text)`: `strstr(text, match)`,
i.e. exact byte-for-byte substring containment. -/
def dav_calendar_text_match_octet (ms ts : List Char) : Bool :=
  decide (ms <:+: ts)

/-- The spec's reference for C6, from its words: case-insensitive
substring containment in which only the ASCII letters A–Z/a–z are
identified with each other and every other byte compares exactly. -/
def specLetterFold (c : Char) : Nat :=
  if 65 ≤ c.toNat ∧ c.toNat ≤ 90 then c.toNat + 32 else c.toNat

/-- Reference containment from the claim's words (C6). -/
def specAsciiCasemapContains (ms ts : List Char) : Bool :=
  decide ((ms.map specLetterFold) <:+: (ts.map specLetterFold))

/-! ## Date-with-UTC-time values -/

/-- An `icaltimetype` value as used by the filter engine: an iCalendar
"date with UTC time".  The null time (`icaltime_null_time`) is the
all-zero value. -/
structure Icaltime where
  year : Nat
  month : Nat
  day : Nat
  hour : Nat
  minute : Nat
  second : Nat
deriving DecidableEq, Repr

/-- `icaltime_null_time()`: the all-zero time value. -/
def icaltime_null_time : Icaltime := ⟨0, 0, 0, 0, 0, 0⟩

/-- Chronological comparison key.  Modelled from the spec: UTC date-times
compare chronologically, which for the in-range field values of the
`YYYYMMDDTHHMMSSZ` form coincides with lexicographic field order. -/
def Icaltime.toKey (t : Icaltime) : Nat :=
  ((((t.year * 13 + t.month) * 32 + t.day) * 24 + t.hour) * 60 + t.minute) * 60 + t.second

/-- Chronological `≤` on UTC date-times. -/
def Icaltime.leb (a b : Icaltime) : Bool := a.toKey ≤ b.toKey

/-- Chronological `<` on UTC date-times. -/
def Icaltime.ltb (a b : Icaltime) : Bool := a.toKey < b.toKey

/-- Numeric value of a two-digit group. -/
def digit2 (a b : Char) : Nat := (a.toNat - 48) * 10 + (b.toNat - 48)

/-- Modelled from the spec: `icaltime_from_string` of the external
iCalendar library, restricted to the value space the filter grammar
names (§4.1, §6): a bound must be an ISO-8601-basic UTC date-time
(iCalendar "date with UTC time") `YYYYMMDDTHHMMSSZ`; any other string
fails the parse (the C parser then sets `icalerrno` and yields the null
time).  In particular the `'T'` separator is mandatory in the basic
format. -/
def icaltime_from_string (s : List Char) : Option Icaltime :=
  match s with
  | [y1, y2, y3, y4, mo1, mo2, d1, d2, t, h1, h2, mi1, mi2, s1, s2, z] =>
    if t = 'T' ∧ z = 'Z' ∧ y1.isDigit ∧ y2.isDigit ∧ y3.isDigit ∧ y4.isDigit ∧
        mo1.isDigit ∧ mo2.isDigit ∧ d1.isDigit ∧ d2.isDigit ∧ h1.isDigit ∧ h2.isDigit ∧
        mi1.isDigit ∧ mi2.isDigit ∧ s1.isDigit ∧ s2.isDigit then
      some ⟨digit2 y1 y2 * 100 + digit2 y3 y4, digit2 mo1 mo2, digit2 d1 d2,
        digit2 h1 h2, digit2 mi1 mi2, digit2 s1 s2⟩
    else none
  | _ => none

/-! ## Error values (`dav_new_error` call sites of the module) -/

/-- `dav_calendar_text_match`: bad `negate-condition` attribute. -/
def errNegateCondition : DavErr :=
  ⟨HTTP_FORBIDDEN, "CALDAV:valid-filter".data,
    "Negate-condition attribute must contain yes or no.".data⟩

/-- `dav_calendar_text_match`: unrecognised `collation` attribute. -/
def errCollation : DavErr :=
  ⟨HTTP_FORBIDDEN, "CALDAV:supported-collation".data,
    "Collation attribute must contain i;ascii-casemap or i;octet.".data⟩

/-- `dav_calendar_time_range`: a present bound failed to parse
(`icalerror_perror()` text abstracted). -/
def errTimeRangeValue : DavErr :=
  ⟨HTTP_FORBIDDEN, "CALDAV:valid-filter".data, "Malformed data".data⟩

/-- `dav_calendar_time_range`: both bounds absent. -/
def errTimeRangeBounds : DavErr :=
  ⟨HTTP_FORBIDDEN, "CALDAV:valid-filter".data,
    "Start and/or end attribute must exist in time-range".data⟩

/-- `dav_calendar_param_filter`: missing `name` attribute. -/
def errNameParamFilter : DavErr :=
  ⟨HTTP_FORBIDDEN, "CALDAV:valid-filter".data,
    "Name attribute must exist in param-filter".data⟩

/-- `dav_calendar_prop_filter`: missing `name` attribute. -/
def errNamePropFilter : DavErr :=
  ⟨HTTP_FORBIDDEN, "CALDAV:valid-filter".data,
    "Name attribute must exist in prop-filter".data⟩

/-- `dav_calendar_comp_filter`: missing `name` attribute. -/
def errNameCompFilter : DavErr :=
  ⟨HTTP_FORBIDDEN, "CALDAV:valid-filter".data,
    "Name attribute must exist in comp-filter".data⟩

/-- `dav_calendar_filter`: `calendar-query` without a `filter` child. -/
def errMissingFilter : DavErr :=
  ⟨HTTP_FORBIDDEN, "CALDAV:valid-filter".data,
    "Filter element must exist beneath calendar-query".data⟩

/-- `dav_calendar_filter`: `filter` without a `comp-filter` child. -/
def errMissingCompFilter : DavErr :=
  ⟨HTTP_FORBIDDEN, "CALDAV:valid-filter".data,
    "Comp-filter element must exist beneath filter element".data⟩

/-- `dav_calendar_filter`: `free-busy-query` without a `time-range` child. -/
def errMissingTimeRange : DavErr :=
  ⟨HTTP_FORBIDDEN, "CALDAV:valid-filter".data,
    "Time-range element must exist beneath free-busy-query element".data⟩

/-- `dav_calendar_filter`: unrecognised report root element. -/
def errRootNotValidated : DavErr :=
  ⟨HTTP_FORBIDDEN, "CALDAV:valid-filter".data, "Root element not validated".data⟩

/-- `dav_calendar_filter`: the `timezone` CDATA failed to parse. -/
def errTimezoneParse : DavErr :=
  ⟨HTTP_FORBIDDEN, "CALDAV:valid-filter".data, "Malformed iCalendar data".data⟩

/-- The C dereferences a NULL `apr_xml_elem` through `dav_find_child_ns`
when the sticky `found` flag outlives the element cursor of the name
loop (see the prop/comp/param filter loops); the embedding surfaces
that undefined behaviour as this distinguished error. -/
def errNullChild : DavErr :=
  ⟨0, [], "undefined behaviour: dav_find_child_ns on a NULL element".data⟩

/-- `dav_calendar_param_filter` reads the uninitialised `prname`
variable for parameters that are neither X nor IANA parameters; the
embedding surfaces that undefined behaviour as this distinguished
error. -/
def errUninitName : DavErr :=
  ⟨0, [], "undefined behaviour: uninitialised prname read".data⟩

/-! ## XML filter elements (as the module reads them through
`dav_find_attr_ns` / `dav_find_child_ns` / `dav_find_next_ns`) -/

/-- A `text-match` element: its PCDATA and the two optional attributes. -/
structure TextMatchElem where
  cdata : List Char
  collation : Option (List Char)
  negateCondition : Option (List Char)
deriving DecidableEq, Repr

/-- A `time-range` element: the optional `start`/`end` attribute values
(`stop` stands for the C `end`, a Lean keyword). -/
structure TimeRangeElem where
  start : Option (List Char)
  stop : Option (List Char)
deriving DecidableEq, Repr

/-- A `param-filter` element. -/
structure ParamFilterElem where
  name : Option (List Char)
  isNotDefined : Bool
  textMatch : Option TextMatchElem
deriving DecidableEq, Repr

/-- A `prop-filter` element; `paramFilters` is the chain of
`param-filter` children (`dav_find_child_ns` returns its head,
`dav_find_next_ns` walks the rest). -/
structure PropFilterElem where
  name : Option (List Char)
  isNotDefined : Bool
  timeRange : Option TimeRangeElem
  textMatch : Option TextMatchElem
  paramFilters : List ParamFilterElem
deriving DecidableEq, Repr

/-- A `comp-filter` element with its nested `prop-filter` and
`comp-filter` children. -/
structure CompFilterElem where
  name : Option (List Char)
  isNotDefined : Bool
  timeRange : Option TimeRangeElem
  propFilters : List PropFilterElem
  compFilters : List CompFilterElem

/-! ## Calendar object model -/

/-- `icalcomponent_kind`, restricted to the kinds the engine
dispatches on; `xComponent` stands for any experimental component,
`noComponent` for `ICAL_NO_COMPONENT`. -/
inductive CompKind where
  | vcalendar | vevent | vtodo | vjournal | vfreebusy | valarm | vtimezone
  | xComponent | noComponent
deriving DecidableEq, Repr

/-- Modelled from the spec: `icalcomponent_string_to_kind` of the
collaborator library resolves the fixed kind enumeration; a name that
does not resolve to a known kind can never be found (the module's own
comment cites libical issue 433). -/
def icalcomponent_string_to_kind (s : List Char) : CompKind :=
  if s = "VCALENDAR".data then .vcalendar
  else if s = "VEVENT".data then .vevent
  else if s = "VTODO".data then .vtodo
  else if s = "VJOURNAL".data then .vjournal
  else if s = "VFREEBUSY".data then .vfreebusy
  else if s = "VALARM".data then .valarm
  else if s = "VTIMEZONE".data then .vtimezone
  else .noComponent

/-- `icalparameter_kind`, as far as `dav_calendar_param_filter`
distinguishes it: X parameters and IANA parameters carry a readable
name; for every other kind the C leaves `prname` uninitialised. -/
inductive ParamKind where
  | xParameter | ianaParameter | standardParameter
deriving DecidableEq, Repr

/-- A property parameter: its kind, name and serialised value
(`icalparameter_enum_to_string` / `icalparameter_get_xvalue`). -/
structure IParam where
  pkind : ParamKind
  pname : List Char
  value : List Char
deriving DecidableEq, Repr

/-- A calendar property: its name (`icalproperty_get_property_name`),
serialised value (`icalproperty_get_value_as_string`), date-time value
(for date/time-valued properties; null otherwise) and parameters. -/
structure IProp where
  pname : List Char
  value : List Char
  time : Icaltime
  params : List IParam
deriving DecidableEq, Repr

/-- The property-kind dispatch of `icalproperty_isa` restricted to the
kinds `dav_calendar_prop_time_range` switches on. -/
inductive PropKind where
  | dtend | due | dtstart | dtstamp | completed | created | lastmodified | otherProp
deriving DecidableEq, Repr

/-- Modelled from the spec: `icalproperty_isa` resolves a property's
kind from its name. -/
def icalproperty_isa (p : IProp) : PropKind :=
  if p.pname = "DTEND".data then .dtend
  else if p.pname = "DUE".data then .due
  else if p.pname = "DTSTART".data then .dtstart
  else if p.pname = "DTSTAMP".data then .dtstamp
  else if p.pname = "COMPLETED".data then .completed
  else if p.pname = "CREATED".data then .created
  else if p.pname = "LAST-MODIFIED".data then .lastmodified
  else .otherProp

/-- A calendar component: kind, properties, the EXDATE exclusion set
(spec §4.4), the instance spans the Recurrence Expander yields for it
(spec §4.4, exclusions already applied), and child components. -/
structure VComp where
  kind : CompKind
  props : List IProp
  exdates : List Icaltime
  spans : List (Icaltime × Icaltime)
  children : List VComp

/-- Modelled from the spec: the component-level date getters
(`icalcomponent_get_dtend` and friends) return the date-time of the
component's first property of the given name, the null time when
absent. -/
def icalcomponent_get_time (c : VComp) (nm : List Char) : Icaltime :=
  match c.props.find? (fun p => decide (p.pname = nm)) with
  | some p => p.time
  | none => icaltime_null_time

/-- Modelled from the spec (§4.4 exclusion rules):
`icalproperty_recurrence_is_excluded` — the time is suppressed by an
EXDATE of the component. -/
def icalproperty_recurrence_is_excluded (c : VComp) (t : Icaltime) : Bool :=
  c.exdates.any (fun e => decide (e = t))

/-- Modelled from the spec (§4.3): the degenerate-span test
`icaltime_span_overlaps(icaltime_span_new(t,t,0), icaltime_span_new(s,e,0))`
used on bare property timestamps — the spec's condition
`(start ≤ t) AND (end > t)`. -/
def icaltime_span_contains (stt ett t : Icaltime) : Bool :=
  Icaltime.leb stt t && Icaltime.ltb t ett

/-! ## The filter engine (`dav_calendar_text_match`,
`dav_calendar_time_range`, `dav_calendar_prop_time_range`, the
param/prop/comp filter matchers and `dav_calendar_filter`).

The shared `ctx->match` flag is threaded as an explicit `Bool`;
`dav_error*` returns become `Except DavErr`. -/

def DAV_CALENDAR_COLLATION_ASCII_CASEMAP : List Char := "i;ascii-casemap".data

def DAV_CALENDAR_COLLATION_OCTET : List Char := "i;octet".data

/-- The collation block of `dav_calendar_text_match` (the body of
`if (collation) { ... }`): absent attribute — no test at all; the two
supported collations set the flag according to the sub-search outcome
and `negate`; anything else is a `CALDAV:supported-collation` error. -/
def dav_calendar_text_match_collation (m : Bool) (pat : List Char)
    (coll : Option (List Char)) (text : List Char) (negate : Bool) :
    Except DavErr Bool :=
  match coll with
  | none => .ok m
  | some v =>
    if v = DAV_CALENDAR_COLLATION_ASCII_CASEMAP then
      .ok (if dav_calendar_text_match_ascii_casecmp pat text then
             (if !negate then true else m)
           else
             (if negate then true else m))
    else if v = DAV_CALENDAR_COLLATION_OCTET then
      .ok (if dav_calendar_text_match_octet pat text then
             (if !negate then true else m)
           else
             (if negate then true else m))
    else .error errCollation

/-- `dav_calendar_text_match`: guard on the already-matched flag, read
the PCDATA, validate `negate-condition` (absent or `"no"` ⇒ no
negation, `"yes"` ⇒ negation, anything else ⇒ `CALDAV:valid-filter`
error), then run the collation block. -/
def dav_calendar_text_match (m : Bool) (tm : TextMatchElem) (text : List Char) :
    Except DavErr Bool :=
  if m then .ok m
  else
    match tm.negateCondition with
    | none => dav_calendar_text_match_collation m tm.cdata tm.collation text false
    | some v =>
      if v = "no".data then
        dav_calendar_text_match_collation m tm.cdata tm.collation text false
      else if v = "yes".data then
        dav_calendar_text_match_collation m tm.cdata tm.collation text true
      else .error errNegateCondition

/-- `dav_calendar_time_range`: guard on the already-matched flag (the
output range then stays whatever the caller held), then parse each
bound, substituting the literal `"00000101000000Z"` /
`"99991231235959Z"` for an absent one.  A parse failure leaves the null
time in the output and raises the sticky `icalerrno`, which is only
inspected after parsing a *present* bound (the ambient error is
assumed clear on entry); both bounds absent is a MUST violation. -/
def dav_calendar_time_range (m : Bool) (tr : TimeRangeElem)
    (cur : Option (Icaltime × Icaltime)) :
    Except DavErr (Option (Icaltime × Icaltime)) :=
  if m then .ok cur
  else
    let sParse := icaltime_from_string (tr.start.getD "00000101000000Z".data)
    let err1 := sParse.isNone
    let stt := sParse.getD icaltime_null_time
    if tr.start.isSome && err1 then .error errTimeRangeValue
    else
      let eParse := icaltime_from_string (tr.stop.getD "99991231235959Z".data)
      let err2 := err1 || eParse.isNone
      let ett := eParse.getD icaltime_null_time
      if tr.stop.isSome && err2 then .error errTimeRangeValue
      else if tr.start.isNone && tr.stop.isNone then .error errTimeRangeBounds
      else .ok (some (stt, ett))

/-- `dav_calendar_prop_time_range`: guard, pick the timestamp by
property kind (component-level getters for DTEND/DUE/DTSTART/DTSTAMP,
the property's own value for COMPLETED/CREATED/LAST-MODIFIED, the null
time otherwise), then set the flag when the timestamp is
recurrence-excluded **or** the degenerate span overlaps the range —
the `||` with `icalproperty_recurrence_is_excluded` is the C's own
condition. -/
def dav_calendar_prop_time_range (m : Bool) (comp : VComp) (p : IProp)
    (stt ett : Icaltime) : Bool :=
  if m then m
  else
    let time :=
      match icalproperty_isa p with
      | .dtend => icalcomponent_get_time comp "DTEND".data
      | .due => icalcomponent_get_time comp "DUE".data
      | .dtstart => icalcomponent_get_time comp "DTSTART".data
      | .dtstamp => icalcomponent_get_time comp "DTSTAMP".data
      | .completed => p.time
      | .created => p.time
      | .lastmodified => p.time
      | .otherProp => icaltime_null_time
    if icalproperty_recurrence_is_excluded comp time
        || icaltime_span_contains stt ett time then true
    else m

/-- Modelled from the spec (§4.3 tables, §4.4): the component-level
overlap test `dav_calendar_comp_time_range` — guard, then delegate to
the collaborator's recurrence/span machinery: the component matches
iff some expanded instance span `[a,b)` intersects `[start,end)` under
the generic half-open interval rule `a < end AND start < b`; kinds the
RFC leaves undefined never overlap. -/
def dav_calendar_comp_time_range (m : Bool) (c : VComp) (stt ett : Icaltime) : Bool :=
  if m then m
  else
    match c.kind with
    | .vevent | .vtodo | .vjournal | .vfreebusy | .valarm =>
      if c.spans.any (fun sp => Icaltime.ltb sp.1 ett && Icaltime.ltb stt sp.2) then true
      else m
    | _ => m

/-! ### `dav_calendar_param_filter` -/

/-- The name loop of `dav_calendar_param_filter`: find the first
sibling `param-filter` whose `name` attribute equals the parameter's
name.  A missing `name` attribute is a MUST violation; for parameters
that are neither X nor IANA parameters the C compares an uninitialised
pointer (undefined behaviour). -/
def pmf_name_loop (param : IParam) :
    List ParamFilterElem → Except DavErr (Option (ParamFilterElem × List ParamFilterElem))
  | [] => .ok none
  | e :: rest =>
    match e.name with
    | none => .error errNameParamFilter
    | some nm =>
      match param.pkind with
      | .standardParameter => .error errUninitName
      | _ =>
        if param.pname = nm then .ok (some (e, rest))
        else pmf_name_loop param rest

/-- The `while (param)` loop of `dav_calendar_param_filter`.  `found`
is declared outside the loop in the C and therefore sticky across
parameters; when it is stale (set by an earlier parameter) and the name
loop exhausts, the C dereferences the NULL cursor. -/
def dav_calendar_param_filter_loop (pfRoot : List ParamFilterElem)
    (params : List IParam) (found : Bool) (rng : Option (Icaltime × Icaltime))
    (m : Bool) : Except DavErr Bool :=
  match params with
  | [] => .ok m
  | param :: rest =>
    match pmf_name_loop param pfRoot with
    | .error e => .error e
    | .ok none =>
      if !found then
        let m' := if pfRoot.any (fun e => e.isNotDefined) then true else m
        dav_calendar_param_filter_loop pfRoot rest found rng m'
      else .error errNullChild
    | .ok (some (e, _)) =>
        if e.isNotDefined then
          dav_calendar_param_filter_loop pfRoot rest true rng m
        else
          let tmStep : Except DavErr Bool :=
            match e.textMatch with
            | some tm => dav_calendar_text_match m tm param.value
            | none => .ok m
          match tmStep with
          | .error err => .error err
          | .ok m1 =>
            let m2 := if rng.isNone && e.textMatch.isNone then true else m1
            dav_calendar_param_filter_loop pfRoot rest true rng m2

/-- `dav_calendar_param_filter`: guard, then the parameter loop with a
fresh `found`. -/
def dav_calendar_param_filter (m : Bool) (pfs : List ParamFilterElem)
    (params : List IParam) (rng : Option (Icaltime × Icaltime)) :
    Except DavErr Bool :=
  if m then .ok m
  else dav_calendar_param_filter_loop pfs params false rng m

/-! ### `dav_calendar_prop_filter` -/

/-- The name loop of `dav_calendar_prop_filter`: find the first sibling
`prop-filter` whose `name` attribute equals the property's name. -/
def pf_name_loop (pname : List Char) :
    List PropFilterElem → Except DavErr (Option (PropFilterElem × List PropFilterElem))
  | [] => .ok none
  | e :: rest =>
    match e.name with
    | none => .error errNamePropFilter
    | some nm =>
      if pname = nm then .ok (some (e, rest))
      else pf_name_loop pname rest

/-- The `while (prop)` loop of `dav_calendar_prop_filter`.  `found` and
the `stt`/`ett` locals are function-scope in the C and sticky across
properties; a stale `found` with an exhausted name cursor dereferences
NULL. -/
def dav_calendar_prop_filter_loop (pfRoot : List PropFilterElem) (comp : VComp)
    (props : List IProp) (found : Bool) (rng : Option (Icaltime × Icaltime))
    (m : Bool) : Except DavErr Bool :=
  match props with
  | [] => .ok m
  | p :: rest =>
    match pf_name_loop p.pname pfRoot with
    | .error e => .error e
    | .ok none =>
      if !found then
        let m' := if pfRoot.any (fun e => e.isNotDefined) then true else m
        dav_calendar_prop_filter_loop pfRoot comp rest found rng m'
      else .error errNullChild
    | .ok (some (e, _)) =>
        if e.isNotDefined then
          dav_calendar_prop_filter_loop pfRoot comp rest true rng m
        else
          let rngStep : Except DavErr (Option (Icaltime × Icaltime)) :=
            match e.timeRange with
            | some tr => dav_calendar_time_range m tr rng
            | none => .ok rng
          match rngStep with
          | .error err => .error err
          | .ok rng1 =>
            let tmStep : Except DavErr Bool :=
              match e.textMatch with
              | some tm => dav_calendar_text_match m tm p.value
              | none => .ok m
            match tmStep with
            | .error err => .error err
            | .ok m1 =>
              let paramStep : Except DavErr Bool :=
                match e.paramFilters with
                | [] => .ok m1
                | pf :: pfrest => dav_calendar_param_filter m1 (pf :: pfrest) p.params rng1
              match paramStep with
              | .error err => .error err
              | .ok m2 =>
                let m3 :=
                  match rng1 with
                  | some (stt, ett) => dav_calendar_prop_time_range m2 comp p stt ett
                  | none => m2
                let m4 :=
                  if rng1.isNone && e.timeRange.isNone && e.textMatch.isNone
                      && e.paramFilters.isEmpty then true
                  else m3
                dav_calendar_prop_filter_loop pfRoot comp rest true rng1 m4

/-- `dav_calendar_prop_filter`: guard, then the property loop over the
component's properties with a fresh `found`. -/
def dav_calendar_prop_filter (m : Bool) (pfs : List PropFilterElem)
    (comp : VComp) (rng : Option (Icaltime × Icaltime)) : Except DavErr Bool :=
  if m then .ok m
  else dav_calendar_prop_filter_loop pfs comp comp.props false rng m

/-! ### `dav_calendar_comp_filter` -/

/-- The name loop of `dav_calendar_comp_filter`: find the first sibling
`comp-filter` whose `name` attribute resolves (through the fixed kind
enumeration) to the component's kind. -/
def cf_name_loop (k : CompKind) :
    List CompFilterElem → Except DavErr (Option (CompFilterElem × List CompFilterElem))
  | [] => .ok none
  | e :: rest =>
    match e.name with
    | none => .error errNameCompFilter
    | some nm =>
      if k = icalcomponent_string_to_kind nm then .ok (some (e, rest))
      else cf_name_loop k rest

/-- The name loop returns an element of its input (size fact used by
the termination argument of the comp-filter loop). -/
def cf_name_loop_size_lt (k : CompKind) :
    ∀ (l : List CompFilterElem) (e : CompFilterElem) (srest : List CompFilterElem),
      cf_name_loop k l = .ok (some (e, srest)) → sizeOf e < sizeOf l := by
  intro l
  induction l with
  | nil => intro e srest h; simp [cf_name_loop] at h
  | cons e0 rest ih =>
    intro e srest h
    rw [cf_name_loop] at h
    split at h
    · simp at h
    · split at h
      · simp only [Except.ok.injEq, Option.some.injEq, Prod.mk.injEq] at h
        obtain ⟨he, -⟩ := h
        subst he
        simp only [List.cons.sizeOf_spec]
        omega
      · have := ih e srest h
        simp only [List.cons.sizeOf_spec]
        omega

/-- A comp-filter's nested comp-filter chain is smaller than the
comp-filter (size fact for termination). -/
def CompFilterElem.sizeOf_compFilters_lt :
    ∀ (e : CompFilterElem), sizeOf e.compFilters < sizeOf e := by
  intro e
  cases e
  simp only [CompFilterElem.compFilters, CompFilterElem.mk.sizeOf_spec]
  omega

/-- A component's child list is smaller than the component (size fact
for termination). -/
def VComp.sizeOf_children_lt : ∀ (c : VComp), sizeOf c.children < sizeOf c := by
  intro c
  cases c
  simp only [VComp.children, VComp.mk.sizeOf_spec]
  omega

/-- The `while (comp)` loop of `dav_calendar_comp_filter`, iterating
the sibling components.  The C reuses the `comp_filter` parameter as a
mutable cursor: every found-and-defined iteration reassigns it to the
current filter's nested `comp-filter` chain (possibly NULL), and the
next iteration's name loop starts from that reassigned chain (`cfPtr`).
`found` is likewise sticky across components. -/
def dav_calendar_comp_filter_loop (comps : List VComp) (found : Bool)
    (cfPtr : List CompFilterElem) (rng : Option (Icaltime × Icaltime))
    (m : Bool) : Except DavErr Bool :=
  match comps with
  | [] => .ok m
  | c :: rest =>
    match hnl : cf_name_loop c.kind cfPtr with
    | .error e => .error e
    | .ok none =>
      if !found then
        let m' := if cfPtr.any (fun e => e.isNotDefined) then true else m
        dav_calendar_comp_filter_loop rest found cfPtr rng m'
      else .error errNullChild
    | .ok (some (e, _)) =>
        if e.isNotDefined then
          dav_calendar_comp_filter_loop rest true cfPtr rng m
        else
          let rngStep : Except DavErr (Option (Icaltime × Icaltime)) :=
            match e.timeRange with
            | some tr => dav_calendar_time_range m tr rng
            | none => .ok rng
          match rngStep with
          | .error err => .error err
          | .ok rng1 =>
            let pfStep : Except DavErr Bool :=
              match e.propFilters with
              | [] => .ok m
              | pf :: pfrest => dav_calendar_prop_filter m (pf :: pfrest) c rng1
            match pfStep with
            | .error err => .error err
            | .ok m1 =>
              let cfStep : Except DavErr Bool :=
                match hcf : e.compFilters with
                | [] => .ok m1
                | cf :: cfrest =>
                  if m1 then .ok m1
                  else dav_calendar_comp_filter_loop c.children false (cf :: cfrest) rng1 m1
              match cfStep with
              | .error err => .error err
              | .ok m2 =>
                let m3 :=
                  match rng1 with
                  | some (stt, ett) =>
                    if e.compFilters.isEmpty && e.propFilters.isEmpty then
                      if c.kind = CompKind.vcalendar then
                        c.children.foldl
                          (fun acc ch => dav_calendar_comp_time_range acc ch stt ett) m2
                      else dav_calendar_comp_time_range m2 c stt ett
                    else m2
                  | none => m2
                let m4 :=
                  if rng1.isNone && e.timeRange.isNone && e.propFilters.isEmpty
                      && e.compFilters.isEmpty then true
                  else m3
                dav_calendar_comp_filter_loop rest true e.compFilters rng1 m4
termination_by sizeOf comps + sizeOf cfPtr
decreasing_by
  · simp only [List.cons.sizeOf_spec]; omega
  · simp only [List.cons.sizeOf_spec]; omega
  · have h1 := cf_name_loop_size_lt _ _ _ _ hnl
    have h2 := CompFilterElem.sizeOf_compFilters_lt e
    have h3 := VComp.sizeOf_children_lt c
    have h4 := congrArg sizeOf hcf
    simp only [List.cons.sizeOf_spec] at h4 ⊢
    omega
  · have h1 := cf_name_loop_size_lt _ _ _ _ hnl
    have h2 := CompFilterElem.sizeOf_compFilters_lt e
    simp only [List.cons.sizeOf_spec]
    omega

/-- `dav_calendar_comp_filter`: guard, then the component loop with a
fresh `found`. -/
def dav_calendar_comp_filter (m : Bool) (cfs : List CompFilterElem)
    (comps : List VComp) (rng : Option (Icaltime × Icaltime)) : Except DavErr Bool :=
  if m then .ok m
  else dav_calendar_comp_filter_loop comps false cfs rng m

/-! ### `dav_calendar_filter` (report dispatch) -/

/-- The `filter` child of a `calendar-query`: its `comp-filter` chain. -/
structure FilterElem where
  compFilters : List CompFilterElem

/-- A parsed report document as the dispatcher reads it: the root
element name, the optional `filter` child, the optional `timezone`
child (paired with the collaborator parser's outcome on its CDATA,
modelled from the spec), and the optional `time-range` child. -/
structure QueryDoc where
  rootName : List Char
  filter : Option FilterElem
  timezone : Option (Option VComp)
  timeRange : Option TimeRangeElem

/-- Modelled from the spec: `icalcomponent_merge_component` merges the
supplied VTIMEZONE into the calendar object before evaluation. -/
def icalcomponent_merge_component (obj tz : VComp) : VComp :=
  ⟨obj.kind, obj.props, obj.exdates, obj.spans, obj.children ++ [tz]⟩

/-- `dav_calendar_filter`: dispatch on the report root element.
`calendar-query` demands a `filter` with a `comp-filter` (after merging
an optional timezone); `calendar-multiget` always matches;
`free-busy-query` demands a `time-range` (the free-busy aggregation
then rewrites the object and leaves the match flag untouched); any
other root is refused. -/
def dav_calendar_filter (doc : Option QueryDoc) (obj : VComp) (m : Bool) :
    Except DavErr Bool :=
  match doc with
  | none => .ok m
  | some d =>
    if d.rootName = "calendar-query".data then
      match d.filter with
      | none => .error errMissingFilter
      | some f =>
        let objStep : Except DavErr VComp :=
          match d.timezone with
          | none => .ok obj
          | some none => .error errTimezoneParse
          | some (some tz) => .ok (icalcomponent_merge_component obj tz)
        match objStep with
        | .error e => .error e
        | .ok obj1 =>
          match f.compFilters with
          | [] => .error errMissingCompFilter
          | cf :: cfrest => dav_calendar_comp_filter m (cf :: cfrest) [obj1] none
    else if d.rootName = "calendar-multiget".data then .ok true
    else if d.rootName = "free-busy-query".data then
      match d.timeRange with
      | none => .error errMissingTimeRange
      | some tr =>
        match dav_calendar_time_range m tr none with
        | .error e => .error e
        | .ok _ => .ok m
    else .error errRootNotValidated

/-! ## Free-busy aggregation (`dav_calendar_freebusy_callback`,
`dav_calendar_freebusy_time_range`) -/

/-- The STATUS of a VEVENT (`icalcomponent_get_status`); `statusNone`
is the absent/default case. -/
inductive IcalStatus where
  | statusNone | confirmed | tentative | cancelled
deriving DecidableEq, Repr

/-- The TRANSP of a VEVENT. -/
inductive IcalTransp where
  | transpOpaque | transpTransparent
deriving DecidableEq, Repr

/-- The FBTYPE parameter values the aggregator emits. -/
inductive FbType where
  | busy | busyTentative
deriving DecidableEq, Repr

/-- An `icaltime_span` handed to the free-busy callback: instance
bounds plus the expander's busy flag. -/
structure FbSpan where
  spanStart : Icaltime
  spanEnd : Icaltime
  isBusy : Bool
deriving DecidableEq, Repr

/-- A synthesized FREEBUSY property: its period and FBTYPE parameter. -/
structure FbProp where
  periodStart : Icaltime
  periodEnd : Icaltime
  fbtype : FbType
deriving DecidableEq, Repr

/-- A VEVENT as the aggregator consumes it: STATUS, TRANSP and the
instance spans of the Recurrence Expander. -/
structure FbEvent where
  status : IcalStatus
  transp : IcalTransp
  spans : List (Icaltime × Icaltime)
deriving DecidableEq, Repr

/-- Modelled from the spec (and the module's own RFC table comment):
`icalcomponent_is_busy` of the collaborator library — busy iff TRANSP
is opaque (or absent) and STATUS is neither CANCELLED nor TENTATIVE. -/
def icalcomponent_is_busy (transp : IcalTransp) (status : IcalStatus) : Bool :=
  decide (transp = IcalTransp.transpOpaque) && !(decide (status = IcalStatus.cancelled))
    && !(decide (status = IcalStatus.tentative))

/-- Modelled from the spec (§4.4): `icalcomponent_foreach_recurrence` —
the expander visits each instance span intersecting the queried range
(generic half-open rule), each span tagged with the component's busy
state. -/
def icalcomponent_foreach_recurrence (ev : FbEvent) (stt ett : Icaltime) :
    List FbSpan :=
  (ev.spans.filter (fun sp => Icaltime.ltb sp.1 ett && Icaltime.ltb stt sp.2)).map
    (fun sp => ⟨sp.1, sp.2, icalcomponent_is_busy ev.transp ev.status⟩)

/-- `dav_calendar_freebusy_callback`: a busy span appends a
`FBTYPE=BUSY` FREEBUSY property; otherwise a TENTATIVE source appends
`FBTYPE=BUSY-TENTATIVE`; otherwise (in particular CANCELLED) nothing
is appended. -/
def dav_calendar_freebusy_callback (status : IcalStatus) (span : FbSpan)
    (freebusy : List FbProp) : List FbProp :=
  if span.isBusy then freebusy ++ [⟨span.spanStart, span.spanEnd, FbType.busy⟩]
  else if status = IcalStatus.tentative then
    freebusy ++ [⟨span.spanStart, span.spanEnd, FbType.busyTentative⟩]
  else freebusy

/-- The VEVENT loop of `dav_calendar_freebusy_time_range`: fold the
callback over every overlapping instance of every VEVENT, accumulating
the FREEBUSY properties of the synthesized VFREEBUSY component. -/
def dav_calendar_freebusy_time_range (events : List FbEvent) (stt ett : Icaltime) :
    List FbProp :=
  events.foldl
    (fun acc ev =>
      (icalcomponent_foreach_recurrence ev stt ett).foldl
        (fun fb span => dav_calendar_freebusy_callback ev.status span fb) acc)
    []

/-! ## Concrete fixtures used by witnesses and counterexamples -/

/-- A SUMMARY property (no date-time value). -/
def sampleSummary : IProp := ⟨"SUMMARY".data, "Board meeting".data, icaltime_null_time, []⟩

/-- A DTSTART property with value 2024-01-01T00:00:00Z. -/
def sampleDtstart : IProp :=
  ⟨"DTSTART".data, "20240101T000000Z".data, ⟨2024, 1, 1, 0, 0, 0⟩, []⟩

/-- A VEVENT holding a SUMMARY followed by a DTSTART. -/
def sampleVevent2 : VComp := ⟨.vevent, [sampleSummary, sampleDtstart], [], [], []⟩

/-- A VEVENT with no properties at all. -/
def sampleVeventEmpty : VComp := ⟨.vevent, [], [], [], []⟩

/-- A VEVENT holding only a SUMMARY. -/
def sampleVeventSummaryOnly : VComp := ⟨.vevent, [sampleSummary], [], [], []⟩

/-- A VEVENT holding only a DTSTART. -/
def sampleVeventDts : VComp := ⟨.vevent, [sampleDtstart], [], [], []⟩

/-- A VEVENT whose DTSTART time is also listed as an EXDATE. -/
def sampleVeventExcluded : VComp :=
  ⟨.vevent, [sampleDtstart], [⟨2024, 1, 1, 0, 0, 0⟩], [], []⟩

/-- `prop-filter name="DTSTART"` carrying `is-not-defined`. -/
def pfIndDtstart : PropFilterElem := ⟨some "DTSTART".data, true, none, none, []⟩

/-- A bare `prop-filter name="DTSTART"` (no children at all). -/
def pfBareDtstart : PropFilterElem := ⟨some "DTSTART".data, false, none, none, []⟩

deriving instance DecidableEq for Except

/-! ## Lemmas about the ASCII casemap scan -/

theorem asciiGreedy_eq_nil_iff (ms ts : List Char) :
    asciiGreedy ms ts = [] ↔
      ms.map dav_calendar_ascii_toupper <+: ts.map dav_calendar_ascii_toupper := by
  induction ms generalizing ts with
  | nil => simp [asciiGreedy, List.nil_prefix]
  | cons a mr ih =>
    cases ts with
    | nil => simp [asciiGreedy]
    | cons b tr =>
      by_cases h : dav_calendar_ascii_toupper a = dav_calendar_ascii_toupper b
      · simp only [asciiGreedy, if_pos h, List.map_cons, List.cons_prefix_cons]
        exact (ih tr).trans (by simp [h])
      · simp only [asciiGreedy, if_neg h, List.map_cons, List.cons_prefix_cons]
        simp [h]

theorem asciiSkip_suffix (m0 : Nat) (ts : List Char) : asciiSkip m0 ts <:+ ts := by
  induction ts with
  | nil => simp [asciiSkip]
  | cons c tr ih =>
    by_cases h : m0 = dav_calendar_ascii_toupper c
    · simp [asciiSkip, if_pos h]
    · simpa [asciiSkip, if_neg h] using ih.trans (List.suffix_cons c tr)

theorem suffix_map_exists (f : Char → Nat) (s : List Nat) (l : List Char)
    (h : s <:+ l.map f) : ∃ u, u <:+ l ∧ s = u.map f := by
  obtain ⟨t, ht⟩ := h
  obtain ⟨s', t', hl, _, hmt⟩ := List.map_eq_append_iff.mp ht.symm
  exact ⟨t', ⟨s', hl.symm⟩, hmt.symm⟩

/-- C6 (amended): `dav_calendar_text_match_ascii_casecmp` returns true
exactly when the candidate contains the pattern as a substring under
the fold that sets bit 0x20 on every byte below 0x80 — identifying not
only A–Z with a–z but also each of '@','[','\\',']','^','_' (0x40–0x5F)
and each control byte with its +0x20 counterpart, while bytes ≥ 0x80
compare exactly — except that an empty pattern matches only a nonempty
candidate. -/
theorem ascii_casecmp_iff_fold_contains (ms ts : List Char) :
    dav_calendar_text_match_ascii_casecmp ms ts = true ↔
      ((ms.map dav_calendar_ascii_toupper <:+: ts.map dav_calendar_ascii_toupper)
        ∧ (ms = [] → ts ≠ [])) := by
  induction ts with
  | nil =>
    cases ms with
    | nil => simp [dav_calendar_text_match_ascii_casecmp]
    | cons a mr => simp [dav_calendar_text_match_ascii_casecmp]
  | cons c tr ih =>
    cases ms with
    | nil =>
      simp [dav_calendar_text_match_ascii_casecmp, asciiGreedy, List.nil_infix]
    | cons a mr =>
      constructor
      · intro h
        refine ⟨?_, by simp⟩
        rw [dav_calendar_text_match_ascii_casecmp] at h
        split at h
        · next hG =>
          have hpre := (asciiGreedy_eq_nil_iff _ _).mp hG
          have hsuf := (asciiSkip_suffix (asciiHeadFold (a :: mr)) (c :: tr)).map
            dav_calendar_ascii_toupper
          exact List.infix_iff_prefix_suffix.mpr ⟨_, hpre, hsuf⟩
        · next hG =>
          have := ((ih.mp h).1)
          exact this.trans ((List.suffix_cons _ _).map dav_calendar_ascii_toupper).isInfix
      · rintro ⟨hinf, -⟩
        obtain ⟨t, hpre, hsuf⟩ := List.infix_iff_prefix_suffix.mp hinf
        obtain ⟨u, husuf, rfl⟩ := suffix_map_exists _ _ _ hsuf
        cases u with
        | nil => simp at hpre
        | cons w ur =>
          rcases List.suffix_cons_iff.mp husuf with hu | hu
          · -- the match sits at the head of the text
            obtain ⟨hw, -⟩ := List.cons_prefix_cons.mp (by simpa using hpre)
            have hcw : w = c := by cases hu; rfl
            have hskip : asciiSkip (asciiHeadFold (a :: mr)) (c :: tr) = c :: tr := by
              simp [asciiSkip, asciiHeadFold, hcw ▸ hw]
            have hG : asciiGreedy (a :: mr) (c :: tr) = [] := by
              apply (asciiGreedy_eq_nil_iff _ _).mpr
              have : (w :: ur).map dav_calendar_ascii_toupper
                  = (c :: tr).map dav_calendar_ascii_toupper := by rw [hu]
              simpa [this] using hpre
            rw [dav_calendar_text_match_ascii_casecmp, hskip, hG]
            simp
          · -- the match sits inside the tail
            have htail : dav_calendar_text_match_ascii_casecmp (a :: mr) tr = true := by
              apply ih.mpr
              refine ⟨List.infix_iff_prefix_suffix.mpr
                ⟨_, hpre, (hu.map dav_calendar_ascii_toupper)⟩, by simp⟩
            rw [dav_calendar_text_match_ascii_casecmp]
            split
            · rfl
            · exact htail

/-! ## Guard behaviour at an already-satisfied context -/

theorem dav_calendar_text_match_matched (tm : TextMatchElem) (text : List Char) :
    dav_calendar_text_match true tm text = .ok true := rfl

theorem dav_calendar_time_range_matched (tr : TimeRangeElem)
    (cur : Option (Icaltime × Icaltime)) :
    dav_calendar_time_range true tr cur = .ok cur := rfl

theorem dav_calendar_prop_time_range_matched (comp : VComp) (p : IProp)
    (stt ett : Icaltime) :
    dav_calendar_prop_time_range true comp p stt ett = true := rfl

theorem dav_calendar_param_filter_matched (pfs : List ParamFilterElem)
    (params : List IParam) (rng : Option (Icaltime × Icaltime)) :
    dav_calendar_param_filter true pfs params rng = .ok true := rfl

theorem dav_calendar_prop_filter_matched (pfs : List PropFilterElem) (comp : VComp)
    (rng : Option (Icaltime × Icaltime)) :
    dav_calendar_prop_filter true pfs comp rng = .ok true := rfl

theorem dav_calendar_comp_filter_matched (cfs : List CompFilterElem)
    (comps : List VComp) (rng : Option (Icaltime × Icaltime)) :
    dav_calendar_comp_filter true cfs comps rng = .ok true := rfl

/-! ## Invariants of the property-filter loop -/

/-- Once the shared flag is true, the property loop can only return it
true (no operation ever resets it). -/
theorem prop_filter_loop_ok_true (pfs : List PropFilterElem) (comp : VComp)
    (props : List IProp) (found : Bool) (rng : Option (Icaltime × Icaltime))
    (m' : Bool)
    (h : dav_calendar_prop_filter_loop pfs comp props found rng true = .ok m') :
    m' = true := by
  induction props generalizing found rng with
  | nil =>
    rw [dav_calendar_prop_filter_loop] at h
    exact (Except.ok.inj h).symm
  | cons p rest ih =>
    rw [dav_calendar_prop_filter_loop] at h
    cases hnl : pf_name_loop p.pname pfs with
    | error e => rw [hnl] at h; simp at h
    | ok r =>
      rw [hnl] at h
      cases r with
      | none =>
        cases found with
        | false => exact ih _ _ (by simpa [ite_self] using h)
        | true => simp at h
      | some es =>
        obtain ⟨e, srest⟩ := es
        dsimp only at h
        cases hd : e.isNotDefined with
        | true =>
          rw [hd] at h
          exact ih _ _ (by simpa using h)
        | false =>
          rw [hd] at h
          rcases htr : e.timeRange with - | tr <;>
          rcases htm : e.textMatch with - | tm <;>
          rcases hpf : e.paramFilters with - | ⟨pf0, pfrest⟩ <;>
          rcases rng with - | ⟨stt, ett⟩ <;>
          simp only [htr, htm, hpf, dav_calendar_time_range_matched,
            dav_calendar_text_match_matched, dav_calendar_param_filter_matched,
            dav_calendar_prop_time_range_matched, Bool.false_eq_true, if_false,
            Option.isNone_none, Option.isNone_some, List.isEmpty_nil, List.isEmpty_cons,
            Bool.and_true, Bool.and_false, Bool.true_and, Bool.false_and,
            if_true, ite_self] at h <;>
          exact ih _ _ h

/-- A bare prop-filter (no children of its own) with no range in
effect: a name-matching property among the actual properties forces a
non-false outcome of the loop (either the match flag ends true or the
evaluation faults on the stale cursor). -/
theorem prop_filter_loop_bare_match (f : PropFilterElem) (nm : List Char) (comp : VComp)
    (props : List IProp) (found m : Bool)
    (hname : f.name = some nm) (hd : f.isNotDefined = false)
    (htr : f.timeRange = none) (htm : f.textMatch = none) (hpf : f.paramFilters = [])
    (hex : ∃ p ∈ props, p.pname = nm) :
    dav_calendar_prop_filter_loop [f] comp props found none m ≠ .ok false := by
  revert hex
  induction props generalizing found m with
  | nil => intro hex; simp at hex
  | cons p rest ih =>
    intro hex
    rw [dav_calendar_prop_filter_loop]
    by_cases hp : p.pname = nm
    · have hnl : pf_name_loop p.pname [f] = .ok (some (f, [])) := by
        simp [pf_name_loop, hname, hp]
      rw [hnl]
      dsimp only
      simp only [hd, htr, htm, hpf, Bool.false_eq_true, if_false,
        Option.isNone_none, List.isEmpty_nil, Bool.and_self, Bool.and_true,
        Bool.true_and, if_true]
      intro h
      have := prop_filter_loop_ok_true _ _ _ _ _ _ h
      simp at this
    · have hnl : pf_name_loop p.pname [f] = .ok none := by
        simp [pf_name_loop, hname, hp]
      rw [hnl]
      dsimp only
      obtain ⟨q, hq, hqn⟩ := hex
      have hqr : q ∈ rest := by
        rcases List.mem_cons.mp hq with rfl | hr
        · exact absurd hqn hp
        · exact hr
      cases found with
      | false =>
        have hany : ([f].any fun e => e.isNotDefined) = false := by simp [hd]
        simp only [Bool.not_false, if_true, hany, Bool.false_eq_true, if_false]
        exact ih _ _ ⟨q, hqr, hqn⟩
      | true => simp

/-! ## Claim theorems -/

/-- C1: free-busy aggregation over one CONFIRMED (or default-status)
VEVENT instance lying fully inside the queried range and one CANCELLED
VEVENT instance overlapping the range synthesizes exactly one FREEBUSY
property, tagged FBTYPE=BUSY; a TENTATIVE instance instead yields a
BUSY-TENTATIVE period and a CANCELLED instance is excluded entirely. -/
theorem freebusy_confirmed_and_cancelled (stt ett a1 b1 a2 b2 : Icaltime)
    (hin1 : Icaltime.leb stt a1 = true) (hin2 : Icaltime.leb b1 ett = true)
    (hne : Icaltime.ltb a1 b1 = true)
    (hov1 : Icaltime.ltb a2 ett = true) (hov2 : Icaltime.ltb stt b2 = true) :
    dav_calendar_freebusy_time_range
        [⟨IcalStatus.confirmed, IcalTransp.transpOpaque, [(a1, b1)]⟩,
         ⟨IcalStatus.cancelled, IcalTransp.transpOpaque, [(a2, b2)]⟩] stt ett
      = [⟨a1, b1, FbType.busy⟩]
  ∧ dav_calendar_freebusy_time_range
        [⟨IcalStatus.statusNone, IcalTransp.transpOpaque, [(a1, b1)]⟩] stt ett
      = [⟨a1, b1, FbType.busy⟩]
  ∧ dav_calendar_freebusy_time_range
        [⟨IcalStatus.tentative, IcalTransp.transpOpaque, [(a1, b1)]⟩] stt ett
      = [⟨a1, b1, FbType.busyTentative⟩]
  ∧ dav_calendar_freebusy_time_range
        [⟨IcalStatus.cancelled, IcalTransp.transpOpaque, [(a2, b2)]⟩] stt ett = [] := by
  have hov1' : Icaltime.ltb a1 ett = true := by
    simp only [Icaltime.ltb, Icaltime.leb, decide_eq_true_eq] at hne hin2 ⊢
    omega
  have hov2' : Icaltime.ltb stt b1 = true := by
    simp only [Icaltime.ltb, Icaltime.leb, decide_eq_true_eq] at hne hin1 ⊢
    omega
  refine ⟨?_, ?_, ?_, ?_⟩ <;>
    simp [dav_calendar_freebusy_time_range, icalcomponent_foreach_recurrence,
      dav_calendar_freebusy_callback, icalcomponent_is_busy, hov1', hov2', hov1, hov2]

/-- C1 witness. -/
theorem freebusy_confirmed_and_cancelled_witness :
    dav_calendar_freebusy_time_range
        [⟨IcalStatus.confirmed, IcalTransp.transpOpaque,
            [(⟨2024, 2, 1, 0, 0, 0⟩, ⟨2024, 2, 2, 0, 0, 0⟩)]⟩,
         ⟨IcalStatus.cancelled, IcalTransp.transpOpaque,
            [(⟨2024, 6, 1, 0, 0, 0⟩, ⟨2025, 2, 2, 0, 0, 0⟩)]⟩]
        ⟨2024, 1, 1, 0, 0, 0⟩ ⟨2024, 12, 31, 0, 0, 0⟩
      = [⟨⟨2024, 2, 1, 0, 0, 0⟩, ⟨2024, 2, 2, 0, 0, 0⟩, FbType.busy⟩] :=
  (freebusy_confirmed_and_cancelled ⟨2024, 1, 1, 0, 0, 0⟩ ⟨2024, 12, 31, 0, 0, 0⟩
    ⟨2024, 2, 1, 0, 0, 0⟩ ⟨2024, 2, 2, 0, 0, 0⟩ ⟨2024, 6, 1, 0, 0, 0⟩ ⟨2025, 2, 2, 0, 0, 0⟩
    (by decide) (by decide) (by decide) (by decide) (by decide)).1

/-- C2: the time-range resolver's substituted defaults are the literals
"00000101000000Z" / "99991231235959Z" — without the mandatory 'T'
separator the claim's "00000101T000000Z" carries — and they fail
ISO-8601-basic parsing (while the claim's sentinel parses).  Hence with
an absent start and a valid present end the resolver reports an
InvalidFilter error (the sticky parse error of the failed default is
observed at the present bound); with a valid present start and an
absent end it succeeds but returns the null time, not an open-ended
sentinel; both bounds absent still errors. -/
theorem time_range_sentinel_evaluation :
    icaltime_from_string "00000101000000Z".data = none
  ∧ icaltime_from_string "99991231235959Z".data = none
  ∧ icaltime_from_string "00000101T000000Z".data = some ⟨0, 1, 1, 0, 0, 0⟩
  ∧ icaltime_from_string "99991231T235959Z".data = some ⟨9999, 12, 31, 23, 59, 59⟩
  ∧ dav_calendar_time_range false ⟨none, some "20240601T000000Z".data⟩ none
      = .error errTimeRangeValue
  ∧ dav_calendar_time_range false ⟨some "20240101T000000Z".data, none⟩ none
      = .ok (some (⟨2024, 1, 1, 0, 0, 0⟩, icaltime_null_time))
  ∧ dav_calendar_time_range false ⟨none, none⟩ none = .error errTimeRangeBounds := by
  exact ⟨rfl, rfl, by decide, by decide, by decide, by decide, by decide⟩

/-- C3: a text-match carrying no collation attribute performs no
collation test at all (the C only enters the collation block under
`if (collation)`), leaving the flag unset where an explicit
collation="i;ascii-casemap" sets it — the absent attribute is not
defaulted to i;ascii-casemap. -/
theorem text_match_absent_collation_evaluation :
    dav_calendar_text_match false ⟨"a".data, none, none⟩ "a".data = .ok false
  ∧ dav_calendar_text_match false
      ⟨"a".data, some DAV_CALENDAR_COLLATION_ASCII_CASEMAP, none⟩ "a".data = .ok true := by
  exact ⟨by decide, by decide⟩

/-- C4 counterexample: against the property list [SUMMARY, DTSTART],
the filter `prop-filter name="DTSTART"` with `is-not-defined` sets the
match — the absence check fires at the first individual child
(SUMMARY) even though a DTSTART exists — and against a parent with no
children at all it never matches, both contradicting the claim. -/
theorem prop_filter_is_not_defined_cex :
    dav_calendar_prop_filter false [pfIndDtstart] sampleVevent2 none = .ok true
  ∧ (sampleVevent2.props.any fun p => decide (p.pname = "DTSTART".data)) = true
  ∧ dav_calendar_prop_filter false [pfIndDtstart] sampleVeventEmpty none = .ok false
  ∧ sampleVeventEmpty.props = [] := by
  exact ⟨by decide, by decide, by decide, rfl⟩

/-- C4 (amended): `is-not-defined` is decided per individual child with
a cumulative `found` flag: the match is set at the first actual child
that name-matches no sibling filter while no earlier child matched
(even if a later child bears the name), and a parent with no children
at all never produces the is-not-defined match. -/
theorem prop_filter_is_not_defined_amended (pfs : List PropFilterElem) (comp : VComp)
    (rng : Option (Icaltime × Icaltime)) :
    (∀ p ps, comp.props = p :: ps →
      pf_name_loop p.pname pfs = .ok none →
      (pfs.any fun e => e.isNotDefined) = true →
      dav_calendar_prop_filter false pfs comp rng ≠ .ok false)
  ∧ (comp.props = [] → dav_calendar_prop_filter false pfs comp rng = .ok false) := by
  constructor
  · intro p ps hprops hnm hind h
    rw [dav_calendar_prop_filter] at h
    simp only [Bool.false_eq_true, if_false] at h
    rw [hprops, dav_calendar_prop_filter_loop, hnm] at h
    dsimp only at h
    simp only [Bool.not_false, if_true, hind] at h
    have := prop_filter_loop_ok_true _ _ _ _ _ _ h
    simp at this
  · intro hprops
    rw [dav_calendar_prop_filter, hprops]
    rfl

/-- C4 witness: a lone SUMMARY (no DTSTART) does trigger the
is-not-defined match, and an empty property list does not. -/
theorem prop_filter_is_not_defined_amended_witness :
    dav_calendar_prop_filter false [pfIndDtstart] sampleVeventSummaryOnly none ≠ .ok false
  ∧ dav_calendar_prop_filter false [pfIndDtstart] sampleVeventEmpty none = .ok false :=
  ⟨(prop_filter_is_not_defined_amended [pfIndDtstart] sampleVeventSummaryOnly none).1
      sampleSummary [] rfl (by decide) (by decide),
   (prop_filter_is_not_defined_amended [pfIndDtstart] sampleVeventEmpty none).2 rfl⟩

/-- C5 counterexample: a childless `prop-filter name="DTSTART"` under
an inherited time range [2024-06-01, 2024-07-01) does NOT match a
present DTSTART property (timestamp 2024-01-01 outside the range) —
name match alone is not sufficient once `stt`/`ett` are set. -/
theorem prop_filter_bare_time_range_cex :
    dav_calendar_prop_filter false [pfBareDtstart] sampleVeventDts
        (some (⟨2024, 6, 1, 0, 0, 0⟩, ⟨2024, 7, 1, 0, 0, 0⟩)) = .ok false
  ∧ (∃ p ∈ sampleVeventDts.props, p.pname = "DTSTART".data) := by
  exact ⟨by decide, by decide⟩

/-- C5 (amended): for a filter node with no time-range child, no
text-match child and no nested child filters, a name match is
sufficient to set the match flag provided no inherited time range is
in effect (`stt`/`ett` NULL); under an inherited range the childless
prop-filter instead applies the property time-range test. -/
theorem prop_filter_bare_existence_amended (f : PropFilterElem) (nm : List Char)
    (comp : VComp)
    (hname : f.name = some nm) (hd : f.isNotDefined = false)
    (htr : f.timeRange = none) (htm : f.textMatch = none) (hpf : f.paramFilters = [])
    (hex : ∃ p ∈ comp.props, p.pname = nm) :
    dav_calendar_prop_filter false [f] comp none ≠ .ok false := by
  rw [dav_calendar_prop_filter]
  simp only [Bool.false_eq_true, if_false]
  exact prop_filter_loop_bare_match f nm comp comp.props false false
    hname hd htr htm hpf hex

/-- C5 witness. -/
theorem prop_filter_bare_existence_amended_witness :
    dav_calendar_prop_filter false [pfBareDtstart] sampleVeventDts none ≠ .ok false :=
  prop_filter_bare_existence_amended pfBareDtstart "DTSTART".data sampleVeventDts
    rfl rfl rfl rfl rfl ⟨sampleDtstart, by decide, rfl⟩

/-- C6 counterexample: the fold `c | 0x20` identifies '[' (0x5B) with
'{' (0x7B), so the scan finds the pattern "[" inside the candidate "{"
although the claim's letters-only reference containment does not. -/
theorem ascii_casemap_fold_cex :
    dav_calendar_text_match_ascii_casecmp "[".data "\x7b".data = true
  ∧ specAsciiCasemapContains "[".data "\x7b".data = false := by
  exact ⟨by decide, by decide⟩

/-- C7: `dav_calendar_prop_time_range` sets the match when the
timestamp is recurrence-excluded even though it lies outside the
range — the `icalproperty_recurrence_is_excluded || overlaps`
disjunct contradicts the documented condition
`(start ≤ t) AND (end > t)`; the boundary behaviour itself (start == t
overlaps, end == t does not) holds. -/
theorem prop_time_range_excluded_evaluation :
    dav_calendar_prop_time_range false sampleVeventExcluded sampleDtstart
        ⟨2024, 6, 1, 0, 0, 0⟩ ⟨2024, 7, 1, 0, 0, 0⟩ = true
  ∧ icaltime_span_contains ⟨2024, 6, 1, 0, 0, 0⟩ ⟨2024, 7, 1, 0, 0, 0⟩
        ⟨2024, 1, 1, 0, 0, 0⟩ = false
  ∧ dav_calendar_prop_time_range false sampleVeventDts sampleDtstart
        ⟨2024, 1, 1, 0, 0, 0⟩ ⟨2024, 7, 1, 0, 0, 0⟩ = true
  ∧ dav_calendar_prop_time_range false sampleVeventDts sampleDtstart
        ⟨2023, 1, 1, 0, 0, 0⟩ ⟨2024, 1, 1, 0, 0, 0⟩ = false := by
  exact ⟨by decide, by decide, by decide, by decide⟩

/-- C8: any filter document whose root element is none of
calendar-query, calendar-multiget or free-busy-query fails with the
"Root element not validated" error, a value distinct from each of the
structural MUST-violation errors raised inside a recognized report
(they differ in their descriptions; all carry the CALDAV:valid-filter
precondition tag). -/
theorem filter_unknown_root_error (d : QueryDoc) (obj : VComp) (m : Bool)
    (h1 : d.rootName ≠ "calendar-query".data)
    (h2 : d.rootName ≠ "calendar-multiget".data)
    (h3 : d.rootName ≠ "free-busy-query".data) :
    dav_calendar_filter (some d) obj m = .error errRootNotValidated
  ∧ errRootNotValidated ≠ errMissingFilter
  ∧ errRootNotValidated ≠ errMissingCompFilter
  ∧ errRootNotValidated ≠ errMissingTimeRange := by
  refine ⟨?_, by decide, by decide, by decide⟩
  rw [dav_calendar_filter]
  simp [h1, h2, h3]

/-- C8 witness. -/
theorem filter_unknown_root_error_witness :
    dav_calendar_filter (some ⟨"foo".data, none, none, none⟩) sampleVeventEmpty false
      = .error errRootNotValidated :=
  (filter_unknown_root_error ⟨"foo".data, none, none, none⟩ sampleVeventEmpty false
    (by decide) (by decide) (by decide)).1

/-- C9: the match flag is monotone and globally short-circuits: every
filter-evaluation entry point called with the flag already true
returns immediately, without error and without changing any state
(the time-range resolver hands back the caller's range untouched). -/
theorem match_flag_short_circuit :
    (∀ tm text, dav_calendar_text_match true tm text = .ok true)
  ∧ (∀ tr cur, dav_calendar_time_range true tr cur = .ok cur)
  ∧ (∀ comp p stt ett, dav_calendar_prop_time_range true comp p stt ett = true)
  ∧ (∀ pfs params rng, dav_calendar_param_filter true pfs params rng = .ok true)
  ∧ (∀ pfs comp rng, dav_calendar_prop_filter true pfs comp rng = .ok true)
  ∧ (∀ cfs comps rng, dav_calendar_comp_filter true cfs comps rng = .ok true) :=
  ⟨dav_calendar_text_match_matched, dav_calendar_time_range_matched,
   dav_calendar_prop_time_range_matched, dav_calendar_param_filter_matched,
   dav_calendar_prop_filter_matched, dav_calendar_comp_filter_matched⟩

/-- C10: a text-match whose negate-condition value is neither "yes" nor
"no" makes text matching fail with the CALDAV:valid-filter-tagged
error before any collation test runs (the error wins for every
collation value, valid or not), and an absent negate-condition behaves
exactly like negate-condition="no". -/
theorem text_match_negate_validation (m : Bool) (pat text v : List Char)
    (coll : Option (List Char)) (hno : v ≠ "no".data) (hyes : v ≠ "yes".data) :
    (dav_calendar_text_match false ⟨pat, coll, some v⟩ text = .error errNegateCondition
      ∧ errNegateCondition.tagname = "CALDAV:valid-filter".data)
  ∧ dav_calendar_text_match m ⟨pat, coll, none⟩ text
      = dav_calendar_text_match m ⟨pat, coll, some "no".data⟩ text := by
  refine ⟨⟨?_, rfl⟩, ?_⟩
  · rw [dav_calendar_text_match]
    simp [hno, hyes]
  · cases m <;> simp [dav_calendar_text_match]

/-- C10 witness. -/
theorem text_match_negate_validation_witness :
    ("maybe".data ≠ "no".data)
  ∧ dav_calendar_text_match false ⟨"A".data, some "i;bogus".data, some "maybe".data⟩
      "b".data = .error errNegateCondition :=
  ⟨by decide,
   ((text_match_negate_validation false "A".data "b".data "maybe".data
      (some "i;bogus".data) (by decide) (by decide)).1).1⟩

end ModDavCalendar
